import Mathlib

/-!
Shallow embedding of the CSV ingestion pipeline of `note-tauri-connection`:
the record validator (`src/src-tauri/src/db/csv_import.rs`) and the import
reconciler (`src/gj7-admin/src-tauri/src/csv_commands.rs`).

Effects are made explicit: the filesystem becomes a `FileInput` value
(outcomes of the metadata/open/read syscalls plus the parsed byte content),
the SQLite `school_accounts` table becomes a `List SchoolAccount`, and
store-level failures are injected through `StoreFaults` flags.
-/

/-- The kinds of validation errors (`ValidationErrorType` in `csv_import.rs`). -/
inductive ValidationErrorType where
  | FileSize
  | FileType
  | Encoding
  | HeaderMissing
  | DataIntegrity
  | TypeMismatch
deriving DecidableEq, Repr

/-- One validation error (`ValidationError` in `csv_import.rs`). -/
structure ValidationError where
  row_number : Nat
  field : Option String
  error_type : ValidationErrorType
  error_message : String
deriving DecidableEq, Repr

/-- One row of the `school_accounts` table.  The SQL schema is external to
the sources; the fields are the ones the embedded code reads or writes
(`id`, `school_id`, `first_name`, `last_name`, `is_active`,
`last_updated_semester_id`). -/
structure SchoolAccount where
  id : Nat
  school_id : String
  first_name : String
  last_name : String
  is_active : Bool
  last_updated_semester_id : Option String
deriving DecidableEq, Repr

/-- The `ExistingAccountInfo` struct of `csv_import.rs`. -/
structure ExistingAccountInfo where
  existing_id : Nat
  school_id : String
  first_name : Option String
  last_name : Option String
  row_number : Nat
deriving DecidableEq, Repr

/-- The `CsvValidationResult` struct of `csv_import.rs`.  A `StringRecord` is embedded
as its list of field values. -/
structure CsvValidationResult where
  is_valid : Bool
  file_name : String
  file_size : Nat
  total_rows : Nat
  validated_rows : Nat
  invalid_rows : Nat
  encoding : String
  preview_rows : List (List String)
  validation_errors : List ValidationError
  errors : List ValidationError
deriving DecidableEq, Repr

/-- The `CsvValidator` struct of `csv_import.rs`; the `rusqlite::Connection` is embedded
as the current contents of the `school_accounts` table. -/
structure CsvValidator where
  max_file_size : Nat
  required_headers : List String
  optional_headers : List String
  connection : List SchoolAccount

/-- The constructor `CsvValidator::new`. -/
def CsvValidator.new (connection : List SchoolAccount) : CsvValidator :=
  { max_file_size := 10 * 1024 * 1024,
    required_headers := ["student_id", "first_name", "middle_name", "last_name"],
    optional_headers := ["gender", "course", "department", "position", "major",
      "year_level", "is_active", "last_updated_semester_id", "last_updated_semester"],
    connection := connection }

def isHexDigit (c : Char) : Bool :=
  c.isDigit || ('a' ≤ c && c ≤ 'f') || ('A' ≤ c && c ≤ 'F')

/-- Modelled from the external `uuid` crate: `Uuid::parse_str` on the
hyphenated 8-4-4-4-12 hexadecimal form (the crate accepts further textual
forms; no claim depends on which strings are accepted here). -/
def uuidParseOk (s : String) : Bool :=
  let cs := s.toList
  cs.length == 36 &&
    (List.range 36).all (fun i =>
      if i == 8 || i == 13 || i == 18 || i == 23 then cs.getD i ' ' == '-'
      else isHexDigit (cs.getD i ' '))

/-- Model of `str::to_lowercase` of the Rust sources, embedded over the character
list (ASCII case folding; kernel-computable, unlike `String.toLower`). -/
def toLowerStr (s : String) : String :=
  ⟨s.data.map Char.toLower⟩

def trimLeftChars : List Char → List Char
  | [] => []
  | c :: cs => if c.isWhitespace then trimLeftChars cs else c :: cs

/-- Model of `str::trim` of the Rust sources, embedded over the character list. -/
def trimStr (s : String) : String :=
  ⟨(trimLeftChars ((trimLeftChars s.data).reverse)).reverse⟩

/-- The method `CsvValidator::check_existing_school_accounts`: locate the `student_id`
column, collect the non-blank trimmed ids, and return the store rows whose
`school_id` is among them (the SQL `WHERE school_id IN (...)` scan), each
tagged with the first CSV row holding that id (`+2` for the header row and
1-based indexing; `0` when not found). -/
def check_existing_school_accounts (v : CsvValidator) (headers : List String)
    (records : List (List String)) : List ExistingAccountInfo :=
  match headers.findIdx? (fun h => toLowerStr h == "student_id") with
  | none => []
  | some school_id_index =>
    let csv_school_ids : List String :=
      (records.map (fun record => trimStr (record.getD school_id_index ""))).filter
        (fun id => !id.isEmpty)
    if csv_school_ids.isEmpty then []
    else
      (v.connection.filter (fun a => csv_school_ids.contains a.school_id)).map (fun a =>
        let csv_row_number :=
          match records.findIdx? (fun record =>
              ((record.get? school_id_index).map (fun id => trimStr id == a.school_id)).getD
                false) with
          | some idx => idx + 2
          | none => 0
        { existing_id := a.id, school_id := a.school_id,
          first_name := some a.first_name, last_name := some a.last_name,
          row_number := csv_row_number })

/-- The error list of `CsvValidator::validate_headers`: one `HeaderMissing`
error per required header absent from the (lower-cased) header names. -/
def validate_headers_errors (v : CsvValidator) (headers : List String) :
    List ValidationError :=
  let header_names := headers.map toLowerStr
  let missing_headers := v.required_headers.filter
    (fun required => !header_names.contains (toLowerStr required))
  missing_headers.map (fun header =>
    { row_number := 0, field := some header, error_type := .HeaderMissing,
      error_message := "Missing required header: " ++ header })

/-- The method `CsvValidator::validate_headers`. -/
def validate_headers (v : CsvValidator) (headers : List String) :
    Except (List ValidationError) Unit :=
  if (validate_headers_errors v headers).isEmpty then .ok ()
  else .error (validate_headers_errors v headers)

/-- The `required_validations` table of `CsvValidator::validate_record`. -/
def required_validations : List (String × String) :=
  [("student_id", "Student ID cannot be empty"),
   ("first_name", "First name cannot be empty"),
   ("middle_name", "Middle name cannot be empty"),
   ("last_name", "Last name cannot be empty")]

/-- The `gender` closure of `validate_record`. -/
def gender_ok (value : String) : Bool :=
  value.isEmpty || ["male", "female", "other", "0", "1", "2"].contains (toLowerStr value)

/-- The `year_level` closure of `validate_record` (always true). -/
def year_level_ok (_value : String) : Bool :=
  true

/-- The `is_active` closure of `validate_record` (exact match, no
lower-casing). -/
def is_active_ok (value : String) : Bool :=
  value.isEmpty || ["0", "1", "true", "false"].contains value

/-- The `last_updated_semester_id` closure of `validate_record`. -/
def semester_id_ok (value : String) : Bool :=
  value.isEmpty || uuidParseOk value

/-- The `optional_field_validations` table of `validate_record`. -/
def optional_field_validations : List (String × (String → Bool)) :=
  [("gender", gender_ok), ("year_level", year_level_ok),
   ("is_active", is_active_ok), ("last_updated_semester_id", semester_id_ok)]

/-- One iteration of the required-field loop of `validate_record`: find the
header position (case-insensitive), and emit one `DataIntegrity` error with
`row_number := 0` when the trimmed value is empty. -/
def requiredFieldErrors (record headers : List String) (hm : String × String) :
    List ValidationError :=
  match headers.findIdx? (fun h => toLowerStr h == toLowerStr hm.1) with
  | some idx =>
    if (trimStr (record.getD idx "")).isEmpty then
      [{ row_number := 0, field := some hm.1, error_type := .DataIntegrity,
         error_message := hm.2 }]
    else []
  | none => []

/-- One iteration of the optional-field loop of `validate_record`: emit one
`TypeMismatch` error when a non-empty trimmed value fails the field's
predicate. -/
def optionalFieldErrors (record headers : List String) (hv : String × (String → Bool)) :
    List ValidationError :=
  match headers.findIdx? (fun h => toLowerStr h == toLowerStr hv.1) with
  | some idx =>
    let value := trimStr (record.getD idx "")
    if !value.isEmpty && !hv.2 value then
      [{ row_number := 0, field := some hv.1, error_type := .TypeMismatch,
         error_message := "Invalid value for " ++ hv.1 }]
    else []
  | none => []

/-- The accumulated `record_errors` of `CsvValidator::validate_record`. -/
def recordErrors (record headers : List String) : List ValidationError :=
  (required_validations.map (requiredFieldErrors record headers)).flatten
    ++ (optional_field_validations.map (optionalFieldErrors record headers)).flatten

/-- The method `CsvValidator::validate_record`. -/
def validate_record (record headers : List String) :
    Except (List ValidationError) Unit :=
  if (recordErrors record headers).isEmpty then .ok ()
  else .error (recordErrors record headers)

/-- The outcome of the filesystem and CSV-parsing effects of one
`validate_file` run: whether each syscall succeeds, the metadata size, the
path extension (empty when none), and the parse outcome of the header line
and of each data row. -/
structure FileInput where
  metadata_ok : Bool
  size : Nat
  extension : String
  file_name : String
  open_ok : Bool
  read_ok : Bool
  utf8_ok : Bool
  header : Except Unit (List String)
  rows : List (Except Unit (List String))

/-- The headers `validate_file` works with: the parsed header row, or
`StringRecord::new()` (empty) when the header read failed. -/
def headersOf (f : FileInput) : List String :=
  match f.header with
  | .ok h => h
  | .error _ => []

/-- The `HeaderMissing` error pushed when `rdr.headers()` fails. -/
def headerReadErrors (f : FileInput) : List ValidationError :=
  match f.header with
  | .ok _ => []
  | .error _ => [{ row_number := 0, field := none, error_type := .HeaderMissing,
                   error_message := "Unable to read CSV headers" }]

/-- State of the record loop of `validate_file`: the `enumerate` index, the
running `total_records` / `valid_records` / `invalid_records` counters, the
preview, and the accumulated errors. -/
structure RowState where
  idx : Nat
  total : Nat
  valid : Nat
  invalid : Nat
  preview : List (List String)
  errs : List ValidationError
deriving Repr

/-- One iteration of the record loop of `validate_file`. -/
def rowStep (headers : List String) (st : RowState)
    (result : Except Unit (List String)) : RowState :=
  let total := st.total + 1
  match result with
  | .ok record =>
    let preview := if st.idx < 5 then st.preview ++ [record] else st.preview
    if (recordErrors record headers).isEmpty then
      { idx := st.idx + 1, total := total, valid := st.valid + 1,
        invalid := st.invalid, preview := preview, errs := st.errs }
    else
      { idx := st.idx + 1, total := total, valid := st.valid,
        invalid := st.invalid + 1, preview := preview,
        errs := st.errs ++ recordErrors record headers }
  | .error _ =>
    { idx := st.idx + 1, total := total, valid := st.valid,
      invalid := st.invalid + 1, preview := st.preview,
      errs := st.errs ++ [{ row_number := total, field := none,
                            error_type := .DataIntegrity,
                            error_message := "Invalid CSV record" }] }

/-- The whole record loop of `validate_file`. -/
def rowPass (headers : List String) (rows : List (Except Unit (List String))) :
    RowState :=
  rows.foldl (rowStep headers)
    { idx := 0, total := 0, valid := 0, invalid := 0, preview := [], errs := [] }

/-- The error list `validate_file` accumulates once the file content has
been read, in source order: oversize, wrong extension, invalid UTF-8,
unreadable header, missing headers, then the per-row errors. -/
def accumulatedErrors (v : CsvValidator) (f : FileInput) : List ValidationError :=
  (if v.max_file_size < f.size then
    [{ row_number := 0, field := none, error_type := .FileSize,
       error_message := "File exceeds maximum size of " ++ toString v.max_file_size
         ++ " bytes" }]
   else [])
  ++ (if toLowerStr f.extension == "csv" then []
      else [{ row_number := 0, field := none, error_type := .FileType,
              error_message := "Invalid file type. Only .csv files are allowed" }])
  ++ (if f.utf8_ok then []
      else [{ row_number := 0, field := none, error_type := .Encoding,
              error_message := "File is not valid UTF-8" }])
  ++ headerReadErrors f
  ++ validate_headers_errors v (headersOf f)
  ++ (rowPass (headersOf f) f.rows).errs

/-- The existing-account cross-check block of `validate_file`: performed
only when no error was accumulated; it re-reads the buffer, keeps the rows
that parse, and queries the store.  The source binds the result to a local
`existing_accounts` that is never placed into the `CsvValidationResult`. -/
def validate_file_existing (v : CsvValidator) (f : FileInput) :
    List ExistingAccountInfo :=
  if (accumulatedErrors v f).isEmpty then
    check_existing_school_accounts v (headersOf f) (f.rows.filterMap Except.toOption)
  else []

/-- The `CsvValidationResult` value `validate_file` constructs once the file
content has been read. -/
def buildValidation (v : CsvValidator) (f : FileInput) : CsvValidationResult :=
  let errors := accumulatedErrors v f
  let rp := rowPass (headersOf f) f.rows
  { is_valid := errors.isEmpty, file_name := f.file_name, file_size := f.size,
    total_rows := rp.total, validated_rows := rp.valid, invalid_rows := rp.invalid,
    encoding := "UTF-8", preview_rows := rp.preview,
    validation_errors := errors, errors := errors }

/-- The method `CsvValidator::validate_file`.  The three early `?` returns (metadata,
open, read) are faithful to the source: the source pushes size/extension
errors before attempting `File::open`, but its open/read failure paths
construct a fresh one-element vector, discarding anything accumulated, so
hoisting the guards preserves behavior. -/
def validate_file (v : CsvValidator) (f : FileInput) :
    Except (List ValidationError) CsvValidationResult :=
  if !f.metadata_ok then
    .error [{ row_number := 0, field := none, error_type := .FileSize,
              error_message := "Unable to read file metadata" }]
  else if !f.open_ok then
    .error [{ row_number := 0, field := none, error_type := .Encoding,
              error_message := "Unable to open file" }]
  else if !f.read_ok then
    .error [{ row_number := 0, field := none, error_type := .Encoding,
              error_message := "Failed to read file contents" }]
  else
    let result := buildValidation v f
    let _existing_accounts := validate_file_existing v f
    if result.is_valid then .ok result else .error result.errors

namespace CsvCommands

/-- The `AccountStatusCounts` struct of `csv_commands.rs`. -/
structure AccountStatusCounts where
  total_accounts : Nat
  activated_accounts : Nat
  deactivated_accounts : Nat
deriving DecidableEq, Repr

/-- The `ExistingAccountInfo` struct of `csv_commands.rs` (distinct from the validator's
struct of the same name). -/
structure ExistingAccountInfo where
  existing_accounts : List SchoolAccount
  new_accounts_count : Nat
  existing_accounts_count : Nat
deriving DecidableEq, Repr

/-- The `CsvImportResponse` struct of `csv_commands.rs`. -/
structure CsvImportResponse where
  validation_result : CsvValidationResult
  total_processed : Nat
  successful_imports : Nat
  failed_imports : Nat
  error_details : List String
  existing_account_info : Option ExistingAccountInfo
  account_status_counts : Option AccountStatusCounts
deriving DecidableEq, Repr

/-- Modelled from the spec: `CreateSchoolAccountRequest` (in the missing
`school_accounts.rs`) carries the external identifier, the name fields, the
active flag and the last-updated-semester reference; only the fields the
embedded code reads are kept. -/
structure CreateSchoolAccountRequest where
  school_id : String
  first_name : String
  last_name : String
  is_active : Bool
  last_updated_semester_id : Option String
deriving DecidableEq, Repr

/-- Fault injection for the store collaborator: which sweep statements fail,
and for which `school_id`s the per-row create/update operations fail. -/
structure StoreFaults where
  deactivate_all_fails : Bool
  activate_many_fails : Bool
  create_fails : List String
  update_fails : List String
deriving DecidableEq, Repr

/-- Modelled from the spec (store contract; `school_accounts.rs` is not in
the sources): `get_school_account_by_school_id` returns the first row with
the given key; the caller treats any error as "not found". -/
def get_school_account_by_school_id (store : List SchoolAccount) (sid : String) :
    Option SchoolAccount :=
  store.find? (fun a => a.school_id == sid)

/-- Modelled from the spec: `create_school_account` inserts a row built from
the request (with a fresh internal id) and returns it, or fails with a store
error (injected through `faults.create_fails`). -/
def create_school_account (faults : StoreFaults) (store : List SchoolAccount)
    (nextId : Nat) (req : CreateSchoolAccountRequest) :
    Except String (SchoolAccount × List SchoolAccount) :=
  if faults.create_fails.contains req.school_id then .error "store error on create"
  else
    let a : SchoolAccount :=
      { id := nextId, school_id := req.school_id, first_name := req.first_name,
        last_name := req.last_name, is_active := req.is_active,
        last_updated_semester_id := req.last_updated_semester_id }
    .ok (a, store ++ [a])

/-- Modelled from the spec: `update_school_account` overwrites the fields of
the row(s) with the given internal id from the request and returns the
updated row, or fails with a store error (injected through
`faults.update_fails`). -/
def update_school_account (faults : StoreFaults) (store : List SchoolAccount)
    (targetId : Nat) (req : CreateSchoolAccountRequest) :
    Except String (SchoolAccount × List SchoolAccount) :=
  if faults.update_fails.contains req.school_id then .error "store error on update"
  else
    let updated : SchoolAccount :=
      { id := targetId, school_id := req.school_id, first_name := req.first_name,
        last_name := req.last_name, is_active := req.is_active,
        last_updated_semester_id := req.last_updated_semester_id }
    .ok (updated, store.map (fun a => if a.id == targetId then updated else a))

/-- The statement `UPDATE school_accounts SET is_active = 0` (the deactivation sweep). -/
def deactivate_all (store : List SchoolAccount) : List SchoolAccount :=
  store.map (fun a => { a with is_active := false })

/-- The statement `UPDATE school_accounts SET is_active = 1 WHERE school_id IN (...)`
(the bulk reactivation). -/
def activate_many (store : List SchoolAccount) (ids : List String) :
    List SchoolAccount :=
  store.map (fun a => if ids.contains a.school_id then { a with is_active := true } else a)

/-- The query `SELECT COUNT(*) FROM school_accounts WHERE is_active = 1`. -/
def countActive (store : List SchoolAccount) : Nat :=
  (store.filter (fun a => a.is_active)).length

/-- A fresh internal id, larger than every id in the store. -/
def freshId (store : List SchoolAccount) : Nat :=
  (store.map (fun a => a.id)).foldl max 0 + 1

/-- Split a list into consecutive chunks of `n` elements (any remainder
forms a final shorter chunk); structural recursion on a fuel argument so
that the definition computes by reduction. -/
def toBatchesF (n : Nat) : Nat → List α → List (List α)
  | _, [] => []
  | 0, l => [l]
  | fuel + 1, x :: xs => (x :: xs.take (n - 1)) :: toBatchesF n fuel (xs.drop (n - 1))

/-- Split a list into consecutive chunks of `n` elements (any remainder
forms a final shorter chunk). -/
def toBatches (n : Nat) (l : List α) : List (List α) :=
  toBatchesF n l.length l

/-- Modelled from the spec: `batch_transform_records` (in the missing
`csv_transform.rs`) chunks the records into batches of `batch_size` and maps
the transformer over each batch; batch boundaries have no semantic effect. -/
def batch_transform_records
    (transform : List String → Except String CreateSchoolAccountRequest)
    (records : List (List String)) (batch_size : Nat) :
    List (List (Except String CreateSchoolAccountRequest)) :=
  (toBatches batch_size records).map (fun batch => batch.map transform)

/-- The mutable locals of the per-row loop of `import_csv_file`, together
with the store state the row operations act on. -/
structure ImportState where
  store : List SchoolAccount
  nextId : Nat
  school_ids_to_activate : List String
  total_processed : Nat
  successful_imports : Nat
  failed_imports : Nat
  error_details : List String
  existing_accounts : List SchoolAccount
deriving Repr

/-- One iteration of the per-row loop of `import_csv_file`. -/
def importRow (faults : StoreFaults) (semester_id : String) (force_update : Bool)
    (st : ImportState) (result : Except String CreateSchoolAccountRequest) :
    ImportState :=
  let st := { st with total_processed := st.total_processed + 1 }
  match result with
  | .ok req0 =>
    let st := { st with
      school_ids_to_activate := st.school_ids_to_activate ++ [req0.school_id] }
    let req := { req0 with last_updated_semester_id := some semester_id }
    match get_school_account_by_school_id st.store req.school_id with
    | some existing_account =>
      if force_update then
        match update_school_account faults st.store existing_account.id req with
        | .ok (updated_account, store1) =>
          { st with store := store1,
                    successful_imports := st.successful_imports + 1,
                    existing_accounts := st.existing_accounts ++ [updated_account] }
        | .error e =>
          { st with failed_imports := st.failed_imports + 1,
                    error_details := st.error_details
                      ++ ["Update failed for " ++ req.school_id ++ ": " ++ e] }
      else
        { st with failed_imports := st.failed_imports + 1,
                  error_details := st.error_details
                    ++ ["Account with school_id " ++ req.school_id
                        ++ " already exists"] }
    | none =>
      match create_school_account faults st.store st.nextId req with
      | .ok (_, store1) =>
        { st with store := store1, nextId := st.nextId + 1,
                  successful_imports := st.successful_imports + 1 }
      | .error e =>
        { st with failed_imports := st.failed_imports + 1,
                  error_details := st.error_details ++ ["Import failed: " ++ e] }
  | .error transform_error =>
    { st with failed_imports := st.failed_imports + 1,
              error_details := st.error_details
                ++ ["Transform error: " ++ transform_error] }

/-- The `school_id`s of the successfully transformed rows, in order: the
final value of the `school_ids_to_activate` local. -/
def collectedIds (results : List (Except String CreateSchoolAccountRequest)) :
    List String :=
  results.filterMap (fun r => match r with
    | .ok req => some req.school_id
    | .error _ => none)

/-- The initial loop state of `import_csv_file`: the store after the
deactivation sweep, a fresh internal id, and zeroed locals. -/
def initState (store0 : List SchoolAccount) : ImportState :=
  { store := deactivate_all store0, nextId := freshId store0,
    school_ids_to_activate := [], total_processed := 0,
    successful_imports := 0, failed_imports := 0, error_details := [],
    existing_accounts := [] }

/-- The `CsvImportResponse` literal `import_csv_file` builds; the source
writes it out once per activation branch with the branch's final counts
(`deactivated_accounts` is `total - activated` in both). -/
def mkResponse (vr : CsvValidationResult) (st : ImportState)
    (total_accounts_after activated_accounts : Nat) : CsvImportResponse :=
  { validation_result := vr,
    total_processed := st.total_processed,
    successful_imports := st.successful_imports,
    failed_imports := st.failed_imports,
    error_details := st.error_details,
    existing_account_info := some
      { existing_accounts := st.existing_accounts,
        new_accounts_count := st.total_processed - st.existing_accounts.length,
        existing_accounts_count := st.existing_accounts.length },
    account_status_counts := some
      { total_accounts := total_accounts_after,
        activated_accounts := activated_accounts,
        deactivated_accounts := total_accounts_after - activated_accounts } }

/-- The part of `import_csv_file` after validation and transformation: the
two counting queries before the sweep are pure reads whose results are never
used, so they are not modelled; then the deactivation sweep (fatal on store
error), the per-row loop over the batches, the bulk reactivation (skipped
when no id was collected, fatal on store error), the final counts, and the
response. -/
def import_reconcile (faults : StoreFaults) (store0 : List SchoolAccount)
    (batched : List (List (Except String CreateSchoolAccountRequest)))
    (validation_result : CsvValidationResult) (semester_id : String)
    (force_update : Bool) : Except String (CsvImportResponse × List SchoolAccount) :=
  if faults.deactivate_all_fails then
    .error "Failed to deactivate existing accounts"
  else
    let st := batched.foldl
      (fun acc batch => batch.foldl (importRow faults semester_id force_update) acc)
      (initState store0)
    if st.school_ids_to_activate.isEmpty then
      .ok (mkResponse validation_result st st.store.length 0, st.store)
    else if faults.activate_many_fails then
      .error "Failed to activate imported accounts"
    else
      let store2 := activate_many st.store st.school_ids_to_activate
      .ok (mkResponse validation_result st store2.length (countActive store2), store2)

/-- The `import_csv_file` command: validate the file (fatal on validation
errors), re-read the records (rows that fail to parse are dropped by
`filter_map(Result::ok)`), batch-transform them (batch size 100), then
reconcile.  The transformer of the missing `csv_transform.rs` is passed in
as a function closed over the headers. -/
def import_csv_file (faults : StoreFaults) (store0 : List SchoolAccount)
    (f : FileInput)
    (transform : List String → Except String CreateSchoolAccountRequest)
    (semester_id : String) (force_update : Bool) :
    Except String (CsvImportResponse × List SchoolAccount) :=
  match validate_file (CsvValidator.new store0) f with
  | .error _ => .error "Validation failed"
  | .ok validation_result =>
    let records := f.rows.filterMap Except.toOption
    let batched := batch_transform_records transform records 100
    import_reconcile faults store0 batched validation_result semester_id force_update

/-- Loop invariant: every account that is active in the working store
already has its `school_id` collected for activation. -/
def ActiveInv (st : ImportState) : Prop :=
  ∀ a ∈ st.store, a.is_active = true → a.school_id ∈ st.school_ids_to_activate

end CsvCommands

/-- The error list `validate_file` surfaces: the `errors` field of the `Ok`
result, or the `Err` payload. -/
def errorsReported (v : CsvValidator) (f : FileInput) : List ValidationError :=
  match validate_file v f with
  | .ok r => r.errors
  | .error es => es

/-- Spec-side formalisation of §4.1 step 1 (file-size check), to be compared
with the list `validate_file` accumulates. -/
def fileSizeErrors (v : CsvValidator) (f : FileInput) : List ValidationError :=
  if v.max_file_size < f.size then
    [{ row_number := 0, field := none, error_type := .FileSize,
       error_message := "File exceeds maximum size of " ++ toString v.max_file_size
         ++ " bytes" }]
  else []

/-- Spec-side formalisation of §4.1 step 2 (extension check). -/
def fileTypeErrors (f : FileInput) : List ValidationError :=
  if toLowerStr f.extension == "csv" then []
  else [{ row_number := 0, field := none, error_type := .FileType,
          error_message := "Invalid file type. Only .csv files are allowed" }]

/-- Spec-side formalisation of §4.1 step 3 (encoding check) for a readable
file. -/
def encodingErrors (f : FileInput) : List ValidationError :=
  if f.utf8_ok then []
  else [{ row_number := 0, field := none, error_type := .Encoding,
          error_message := "File is not valid UTF-8" }]

/-- Spec-side formalisation of §4.1 step 5: the per-row errors of the record
loop, with the running 1-based record count used for unparseable rows. -/
def rowErrsFrom (headers : List String) :
    Nat → List (Except Unit (List String)) → List ValidationError
  | _, [] => []
  | t, .ok record :: rest =>
    recordErrors record headers ++ rowErrsFrom headers (t + 1) rest
  | t, .error _ :: rest =>
    { row_number := t + 1, field := none, error_type := .DataIntegrity,
      error_message := "Invalid CSV record" } :: rowErrsFrom headers (t + 1) rest

/-- The external identifiers present in a file: the non-blank trimmed values
of the `student_id` column (as collected by
`check_existing_school_accounts`). -/
def fileSchoolIds (headers : List String) (records : List (List String)) :
    List String :=
  match headers.findIdx? (fun h => toLowerStr h == "student_id") with
  | none => []
  | some idx =>
    (records.map (fun record => trimStr (record.getD idx ""))).filter
      (fun id => !id.isEmpty)

/-- The transform results the import loop iterates over: every row that
parsed, put through the transformer. -/
def transformedResults (f : FileInput)
    (transform : List String → Except String CsvCommands.CreateSchoolAccountRequest) :
    List (Except String CsvCommands.CreateSchoolAccountRequest) :=
  (f.rows.filterMap Except.toOption).map transform

/-- A placeholder import outcome, used only to strip the `Except` layer from
a run that is known to succeed. -/
def dfltOut : CsvCommands.CsvImportResponse × List SchoolAccount :=
  ({ validation_result :=
      { is_valid := true, file_name := "", file_size := 0, total_rows := 0,
        validated_rows := 0, invalid_rows := 0, encoding := "UTF-8",
        preview_rows := [], validation_errors := [], errors := [] },
     total_processed := 0, successful_imports := 0, failed_imports := 0,
     error_details := [], existing_account_info := none,
     account_status_counts := none }, [])

/-- Strip the `Except` layer from an import run (placeholder on error). -/
def outOf (r : Except String (CsvCommands.CsvImportResponse × List SchoolAccount)) :
    CsvCommands.CsvImportResponse × List SchoolAccount :=
  r.toOption.getD dfltOut

/-- No injected store failures. -/
def noFaults : CsvCommands.StoreFaults :=
  { deactivate_all_fails := false, activate_many_fails := false,
    create_fails := [], update_fails := [] }

/-- A store failure injected into the deactivation sweep. -/
def daFault : CsvCommands.StoreFaults :=
  { deactivate_all_fails := true, activate_many_fails := false,
    create_fails := [], update_fails := [] }

/-- The four required headers, in file order. -/
def stdHeader : List String := ["student_id", "first_name", "middle_name", "last_name"]

/-- A well-formed data row for external id `X`. -/
def rowX : List String := ["X", "A", "M", "B"]

/-- A transform result for external id `X`. -/
def reqX : CsvCommands.CreateSchoolAccountRequest :=
  { school_id := "X", first_name := "A", last_name := "B", is_active := true,
    last_updated_semester_id := none }

/-- A transformer that accepts every row as `reqX`. -/
def tOkX (_record : List String) : Except String CsvCommands.CreateSchoolAccountRequest :=
  .ok reqX

/-- A transformer that fails on every row. -/
def tErr (_record : List String) : Except String CsvCommands.CreateSchoolAccountRequest :=
  .error "semester lookup failed"

/-- A fully readable, valid one-row CSV file for external id `X`. -/
def fileX : FileInput :=
  { metadata_ok := true, size := 100, extension := "csv",
    file_name := "students.csv", open_ok := true, read_ok := true,
    utf8_ok := true, header := .ok stdHeader, rows := [.ok rowX] }

/-- A readable file whose second record fails to parse. -/
def file4 : FileInput :=
  { fileX with rows := [.ok rowX, .error ()] }

/-- A file that cannot be opened. -/
def file5 : FileInput :=
  { fileX with open_ok := false }

/-- A readable file that is oversized, has the wrong extension, is not valid
UTF-8, and has a data row with an empty required field. -/
def file6 : FileInput :=
  { fileX with size := 20 * 1024 * 1024, extension := "txt", utf8_ok := false,
               rows := [.ok ["", "A", "M", "B"]] }

/-- A readable file with six data rows: the first fails to parse, the
remaining five parse and are field-valid. -/
def file7 : FileInput :=
  { fileX with rows :=
      [.error (), .ok ["1", "A", "M", "B"], .ok ["2", "A", "M", "B"],
       .ok ["3", "A", "M", "B"], .ok ["4", "A", "M", "B"],
       .ok ["5", "A", "M", "B"]] }

/-- A file whose single data row has an empty `first_name`. -/
def file3 : FileInput :=
  { fileX with rows := [.ok ["X", "", "Q", "D"]] }

/-- A store holding an account for external id `X`. -/
def store8 : List SchoolAccount :=
  [{ id := 7, school_id := "X", first_name := "A", last_name := "B",
     is_active := true, last_updated_semester_id := none }]

/-- A store holding active accounts `X` and `Y`. -/
def store9 : List SchoolAccount :=
  [{ id := 1, school_id := "X", first_name := "A", last_name := "B",
     is_active := true, last_updated_semester_id := none },
   { id := 2, school_id := "Y", first_name := "C", last_name := "D",
     is_active := true, last_updated_semester_id := none }]

/-- A store holding only an active account `X`. -/
def store1x : List SchoolAccount :=
  [{ id := 1, school_id := "X", first_name := "A", last_name := "B",
     is_active := true, last_updated_semester_id := none }]

/-- Import of `fileX` into an empty store (all rows transform to `reqX`). -/
def wOutC1 : CsvCommands.CsvImportResponse × List SchoolAccount :=
  outOf (CsvCommands.import_csv_file noFaults [] fileX tOkX "sem" false)

/-- Import of `fileX` into `store1x` with a failing transformer. -/
def cOutC1 : CsvCommands.CsvImportResponse × List SchoolAccount :=
  outOf (CsvCommands.import_csv_file noFaults store1x fileX tErr "sem" false)

/-- Re-import of `fileX` into `store9` with `force_update = false`. -/
def cOutC9 : CsvCommands.CsvImportResponse × List SchoolAccount :=
  outOf (CsvCommands.import_csv_file noFaults store9 fileX tOkX "sem" false)

/-- Import of `fileX` into `store1x` with `force_update = false`. -/
def wOutC10 : CsvCommands.CsvImportResponse × List SchoolAccount :=
  outOf (CsvCommands.import_csv_file noFaults store1x fileX tOkX "sem" false)

/-- The loop state after the per-row loop of `import_csv_file` has consumed
every transformed row: the value of the loop's mutable locals. -/
def CsvCommands.runState (faults : CsvCommands.StoreFaults)
    (store0 : List SchoolAccount) (f : FileInput)
    (transform : List String → Except String CsvCommands.CreateSchoolAccountRequest)
    (sem : String) (fu : Bool) : CsvCommands.ImportState :=
  (transformedResults f transform).foldl
    (CsvCommands.importRow faults sem fu) (CsvCommands.initState store0)

theorem rowStep_total (headers : List String) (st : RowState)
    (r : Except Unit (List String)) : (rowStep headers st r).total = st.total + 1 := by
  cases r with
  | ok record =>
    cases h : (recordErrors record headers).isEmpty <;> simp [rowStep, h]
  | error e => rfl

theorem rowStep_valid_invalid (headers : List String) (st : RowState)
    (r : Except Unit (List String)) :
    (rowStep headers st r).valid + (rowStep headers st r).invalid
      = st.valid + st.invalid + 1 := by
  cases r with
  | ok record =>
    cases h : (recordErrors record headers).isEmpty <;> simp [rowStep, h] <;> omega
  | error e =>
    simp [rowStep]
    omega

theorem rowPass_counts (headers : List String) :
    ∀ (rows : List (Except Unit (List String))) (st : RowState),
      ((rows.foldl (rowStep headers) st).total = st.total + rows.length)
      ∧ ((rows.foldl (rowStep headers) st).valid
          + (rows.foldl (rowStep headers) st).invalid
          = st.valid + st.invalid + rows.length)
  | [], st => by simp
  | r :: rest, st => by
    have ih := rowPass_counts headers rest (rowStep headers st r)
    have h1 := rowStep_total headers st r
    have h2 := rowStep_valid_invalid headers st r
    simp only [List.foldl_cons, List.length_cons]
    omega

theorem rowPass_errs (headers : List String) :
    ∀ (rows : List (Except Unit (List String))) (st : RowState),
      (rows.foldl (rowStep headers) st).errs
        = st.errs ++ rowErrsFrom headers st.total rows
  | [], st => by simp [rowErrsFrom]
  | .ok record :: rest, st => by
    have ih := rowPass_errs headers rest (rowStep headers st (.ok record))
    simp only [List.foldl_cons]
    rw [ih]
    cases h : (recordErrors record headers).isEmpty with
    | true =>
      have he : recordErrors record headers = [] := by
        simpa [List.isEmpty_iff] using h
      simp [rowStep, h, rowErrsFrom, he]
    | false =>
      simp [rowStep, h, rowErrsFrom]
  | .error e :: rest, st => by
    have ih := rowPass_errs headers rest (rowStep headers st (.error e))
    simp only [List.foldl_cons]
    rw [ih]
    simp [rowStep, rowErrsFrom]

theorem rowPass_errs_nil (headers : List String)
    (rows : List (Except Unit (List String))) :
    (rowPass headers rows).errs = rowErrsFrom headers 0 rows := by
  unfold rowPass
  rw [rowPass_errs]
  rfl

theorem rowPass_preview (headers : List String) :
    ∀ (rows : List (Except Unit (List String))) (st : RowState),
      (rows.foldl (rowStep headers) st).preview
        = st.preview ++ (rows.take (5 - st.idx)).filterMap Except.toOption
  | [], st => by simp
  | .ok record :: rest, st => by
    have ih := rowPass_preview headers rest (rowStep headers st (.ok record))
    simp only [List.foldl_cons]
    rw [ih]
    by_cases h5 : st.idx < 5
    · have hk : 5 - st.idx = (5 - (st.idx + 1)) + 1 := by omega
      rw [hk]
      cases h : (recordErrors record headers).isEmpty <;>
        simp [rowStep, h, h5, Except.toOption, List.filterMap_cons]
    · have hk : 5 - st.idx = 0 := by omega
      have hk1 : 5 - (st.idx + 1) = 0 := by omega
      rw [hk]
      cases h : (recordErrors record headers).isEmpty <;>
        simp [rowStep, h, h5, hk1]
  | .error e :: rest, st => by
    have ih := rowPass_preview headers rest (rowStep headers st (.error e))
    simp only [List.foldl_cons]
    rw [ih]
    by_cases h5 : st.idx < 5
    · have hk : 5 - st.idx = (5 - (st.idx + 1)) + 1 := by omega
      rw [hk]
      simp [rowStep, Except.toOption, List.filterMap_cons]
    · have hk : 5 - st.idx = 0 := by omega
      have hk1 : 5 - (st.idx + 1) = 0 := by omega
      rw [hk]
      simp [rowStep, hk1]

theorem buildValidation_errors (v : CsvValidator) (f : FileInput) :
    (buildValidation v f).errors = accumulatedErrors v f := rfl

theorem buildValidation_is_valid (v : CsvValidator) (f : FileInput) :
    (buildValidation v f).is_valid = (accumulatedErrors v f).isEmpty := rfl

theorem validate_file_readable (v : CsvValidator) (f : FileInput)
    (hm : f.metadata_ok = true) (ho : f.open_ok = true) (hr : f.read_ok = true) :
    validate_file v f
      = if (buildValidation v f).errors.isEmpty then .ok (buildValidation v f)
        else .error (buildValidation v f).errors := by
  unfold validate_file
  rw [hm, ho, hr]
  simp only [Bool.not_true, Bool.false_eq_true, if_false]
  rfl

theorem filter_requiredFieldErrors_ne (record headers : List String)
    (hm : String × String) (fld : String) (hne : ¬ hm.1 = fld) :
    (requiredFieldErrors record headers hm).filter (fun e => e.field == some fld)
      = [] := by
  unfold requiredFieldErrors
  cases headers.findIdx? (fun h => toLowerStr h == toLowerStr hm.1) with
  | none => rfl
  | some idx =>
    by_cases h : (trimStr (record.getD idx "")).isEmpty <;> simp [h, hne]

theorem optionalFieldErrors_shape (record headers : List String)
    (hv : String × (String → Bool)) :
    optionalFieldErrors record headers hv = []
    ∨ optionalFieldErrors record headers hv
        = [{ row_number := 0, field := some hv.1, error_type := .TypeMismatch,
             error_message := "Invalid value for " ++ hv.1 }] := by
  unfold optionalFieldErrors
  cases headers.findIdx? (fun h => toLowerStr h == toLowerStr hv.1) with
  | none => exact .inl rfl
  | some idx =>
    by_cases h : (!(trimStr (record.getD idx "")).isEmpty
        && !hv.2 (trimStr (record.getD idx ""))) = true
    · exact .inr (if_pos h)
    · exact .inl (if_neg h)

theorem filter_optionalFieldErrors_ne (record headers : List String)
    (hv : String × (String → Bool)) (fld : String) (hne : ¬ hv.1 = fld) :
    (optionalFieldErrors record headers hv).filter (fun e => e.field == some fld)
      = [] := by
  rcases optionalFieldErrors_shape record headers hv with h | h
  · rw [h]
    rfl
  · rw [h]
    simp [hne]

theorem filter_requiredFieldErrors_self (record headers : List String)
    (hm : String × String) (idx : Nat)
    (hidx : headers.findIdx? (fun h => toLowerStr h == toLowerStr hm.1) = some idx)
    (hempty : (trimStr (record.getD idx "")).isEmpty = true) :
    (requiredFieldErrors record headers hm).filter (fun e => e.field == some hm.1)
      = [{ row_number := 0, field := some hm.1, error_type := .DataIntegrity,
           error_message := hm.2 }] := by
  have hval : requiredFieldErrors record headers hm
      = [{ row_number := 0, field := some hm.1, error_type := .DataIntegrity,
           error_message := hm.2 }] := by
    unfold requiredFieldErrors
    rw [hidx]
    exact if_pos hempty
  rw [hval]
  simp

theorem validate_file_connection_free (s1 s2 : List SchoolAccount) (f : FileInput) :
    validate_file (CsvValidator.new s1) f = validate_file (CsvValidator.new s2) f := by
  unfold validate_file buildValidation accumulatedErrors validate_headers_errors
  simp only [CsvValidator.new]

theorem accumulatedErrors_decomposition (v : CsvValidator) (f : FileInput) :
    accumulatedErrors v f
      = fileSizeErrors v f ++ fileTypeErrors f ++ encodingErrors f
        ++ headerReadErrors f ++ validate_headers_errors v (headersOf f)
        ++ rowErrsFrom (headersOf f) 0 f.rows := by
  unfold accumulatedErrors fileSizeErrors fileTypeErrors encodingErrors
  rw [rowPass_errs_nil]

/-- Claim C3, amended:  For every data row with a required field
(`student_id`, `first_name`, `middle_name`, `last_name`) whose value is
empty after trimming, `validate_record` produces exactly one `DataIntegrity`
error naming that field — but the error carries `row_number = 0` (the
file-level sentinel), not the row's 1-based row number; only
unparseable-row errors are stamped with the running record number. -/
theorem required_field_empty_error (record headers : List String)
    (fld msg : String) (idx : Nat)
    (hmem : (fld, msg) ∈ required_validations)
    (hidx : headers.findIdx? (fun h => toLowerStr h == toLowerStr fld) = some idx)
    (hempty : (trimStr (record.getD idx "")).isEmpty = true) :
    (recordErrors record headers).filter (fun e => e.field == some fld)
      = [{ row_number := 0, field := some fld, error_type := .DataIntegrity,
           error_message := msg }] := by
  simp only [required_validations, List.mem_cons, List.not_mem_nil, or_false,
    Prod.mk.injEq] at hmem
  rcases hmem with ⟨rfl, rfl⟩ | ⟨rfl, rfl⟩ | ⟨rfl, rfl⟩ | ⟨rfl, rfl⟩ <;>
    (unfold recordErrors required_validations optional_field_validations
     simp only [List.map_cons, List.map_nil, List.flatten_cons, List.flatten_nil,
       List.filter_append, List.append_nil]) <;>
    rw [filter_optionalFieldErrors_ne record headers ("gender", gender_ok) _ (by decide),
        filter_optionalFieldErrors_ne record headers ("year_level", year_level_ok) _
          (by decide),
        filter_optionalFieldErrors_ne record headers ("is_active", is_active_ok) _
          (by decide),
        filter_optionalFieldErrors_ne record headers
          ("last_updated_semester_id", semester_id_ok) _ (by decide)]
  · rw [filter_requiredFieldErrors_self record headers
          ("student_id", "Student ID cannot be empty") idx hidx hempty,
        filter_requiredFieldErrors_ne record headers
          ("first_name", "First name cannot be empty") _ (by decide),
        filter_requiredFieldErrors_ne record headers
          ("middle_name", "Middle name cannot be empty") _ (by decide),
        filter_requiredFieldErrors_ne record headers
          ("last_name", "Last name cannot be empty") _ (by decide)]
    simp
  · rw [filter_requiredFieldErrors_self record headers
          ("first_name", "First name cannot be empty") idx hidx hempty,
        filter_requiredFieldErrors_ne record headers
          ("student_id", "Student ID cannot be empty") _ (by decide),
        filter_requiredFieldErrors_ne record headers
          ("middle_name", "Middle name cannot be empty") _ (by decide),
        filter_requiredFieldErrors_ne record headers
          ("last_name", "Last name cannot be empty") _ (by decide)]
    simp
  · rw [filter_requiredFieldErrors_self record headers
          ("middle_name", "Middle name cannot be empty") idx hidx hempty,
        filter_requiredFieldErrors_ne record headers
          ("student_id", "Student ID cannot be empty") _ (by decide),
        filter_requiredFieldErrors_ne record headers
          ("first_name", "First name cannot be empty") _ (by decide),
        filter_requiredFieldErrors_ne record headers
          ("last_name", "Last name cannot be empty") _ (by decide)]
    simp
  · rw [filter_requiredFieldErrors_self record headers
          ("last_name", "Last name cannot be empty") idx hidx hempty,
        filter_requiredFieldErrors_ne record headers
          ("student_id", "Student ID cannot be empty") _ (by decide),
        filter_requiredFieldErrors_ne record headers
          ("first_name", "First name cannot be empty") _ (by decide),
        filter_requiredFieldErrors_ne record headers
          ("middle_name", "Middle name cannot be empty") _ (by decide)]
    simp

theorem required_field_empty_error_witness :
    (recordErrors ["X", "", "Q", "D"] stdHeader).filter
        (fun e => e.field == some "first_name")
      = [{ row_number := 0, field := some "first_name",
           error_type := .DataIntegrity,
           error_message := "First name cannot be empty" }] :=
  required_field_empty_error ["X", "", "Q", "D"] stdHeader "first_name"
    "First name cannot be empty" 1 (by decide) (by decide) (by decide)

/-- Claim C3, counterexample:  A file whose single data row (data row 1) has
an empty `first_name` yields exactly one `DataIntegrity` error for that
field, but its `row_number` is `0` — the value the claim reserves for
file-level errors — not the row's 1-based row number. -/
theorem data_row_number_counterexample :
    validate_file (CsvValidator.new []) file3
      = .error [{ row_number := 0, field := some "first_name",
                  error_type := .DataIntegrity,
                  error_message := "First name cannot be empty" }] := by
  rfl

/-- Claim C4:  Every `CsvValidationResult` built by `validate_file` satisfies
`is_valid = errors.isEmpty` and `validated_rows + invalid_rows = total_rows`,
and for a readable file `validate_file` returns `Ok` with that result
exactly when the accumulated error list is empty, otherwise `Err` with that
list. -/
theorem validation_result_invariants (s : List SchoolAccount) (f : FileInput)
    (hm : f.metadata_ok = true) (ho : f.open_ok = true) (hr : f.read_ok = true) :
    ((buildValidation (CsvValidator.new s) f).is_valid
        = (buildValidation (CsvValidator.new s) f).errors.isEmpty)
    ∧ ((buildValidation (CsvValidator.new s) f).validated_rows
        + (buildValidation (CsvValidator.new s) f).invalid_rows
        = (buildValidation (CsvValidator.new s) f).total_rows)
    ∧ (validate_file (CsvValidator.new s) f
        = if (buildValidation (CsvValidator.new s) f).errors.isEmpty
          then .ok (buildValidation (CsvValidator.new s) f)
          else .error (buildValidation (CsvValidator.new s) f).errors) := by
  refine ⟨rfl, ?_, validate_file_readable _ f hm ho hr⟩
  have h := rowPass_counts (headersOf f) f.rows
    { idx := 0, total := 0, valid := 0, invalid := 0, preview := [], errs := [] }
  obtain ⟨h1, h2⟩ := h
  simp only at h1 h2
  show (rowPass (headersOf f) f.rows).valid + (rowPass (headersOf f) f.rows).invalid
      = (rowPass (headersOf f) f.rows).total
  unfold rowPass
  omega

theorem validation_result_invariants_witness :
    ((buildValidation (CsvValidator.new []) file4).is_valid
        = (buildValidation (CsvValidator.new []) file4).errors.isEmpty)
    ∧ ((buildValidation (CsvValidator.new []) file4).validated_rows
        + (buildValidation (CsvValidator.new []) file4).invalid_rows
        = (buildValidation (CsvValidator.new []) file4).total_rows)
    ∧ (validate_file (CsvValidator.new []) file4
        = if (buildValidation (CsvValidator.new []) file4).errors.isEmpty
          then .ok (buildValidation (CsvValidator.new []) file4)
          else .error (buildValidation (CsvValidator.new []) file4).errors) :=
  validation_result_invariants [] file4 rfl rfl rfl

/-- Claim C5:  If the file cannot be opened, or its contents cannot be read at
all, `validate_file` short-circuits the rest of validation and returns
immediately with exactly one error, of kind `Encoding` (the metadata stat,
which does not open the file, must itself have succeeded — its failure is a
distinct single-`FileSize` short-circuit). -/
theorem io_failure_single_encoding_error (s : List SchoolAccount) (f : FileInput)
    (hm : f.metadata_ok = true) (h : f.open_ok = false ∨ f.read_ok = false) :
    ∃ e, validate_file (CsvValidator.new s) f = .error [e]
      ∧ e.error_type = .Encoding := by
  cases ho : f.open_ok with
  | false =>
    refine ⟨{ row_number := 0, field := none, error_type := .Encoding,
              error_message := "Unable to open file" }, ?_, rfl⟩
    unfold validate_file
    rw [hm, ho]
    rfl
  | true =>
    have hr : f.read_ok = false := by
      rcases h with h | h
      · rw [ho] at h; cases h
      · exact h
    refine ⟨{ row_number := 0, field := none, error_type := .Encoding,
              error_message := "Failed to read file contents" }, ?_, rfl⟩
    unfold validate_file
    rw [hm, ho, hr]
    rfl

theorem io_failure_single_encoding_error_witness :
    file5.metadata_ok = true ∧ (file5.open_ok = false ∨ file5.read_ok = false)
    ∧ ∃ e, validate_file (CsvValidator.new []) file5 = .error [e]
        ∧ e.error_type = .Encoding :=
  ⟨rfl, .inl rfl, io_failure_single_encoding_error [] file5 rfl (.inl rfl)⟩

/-- Claim C6:  For a readable file, file-level errors (oversize, wrong
extension, invalid UTF-8) do not short-circuit validation: the header and
per-row checks still run, and the surfaced error list is exactly the
concatenation of all error groups detected in the single pass. -/
theorem file_level_errors_accumulate (s : List SchoolAccount) (f : FileInput)
    (hm : f.metadata_ok = true) (ho : f.open_ok = true) (hr : f.read_ok = true) :
    errorsReported (CsvValidator.new s) f
      = fileSizeErrors (CsvValidator.new s) f ++ fileTypeErrors f
        ++ encodingErrors f ++ headerReadErrors f
        ++ validate_headers_errors (CsvValidator.new s) (headersOf f)
        ++ rowErrsFrom (headersOf f) 0 f.rows := by
  have hdec := accumulatedErrors_decomposition (CsvValidator.new s) f
  unfold errorsReported
  rw [validate_file_readable _ f hm ho hr]
  by_cases h : (buildValidation (CsvValidator.new s) f).errors.isEmpty
  · rw [if_pos h]
    show (buildValidation (CsvValidator.new s) f).errors = _
    rw [buildValidation_errors, hdec]
  · rw [if_neg h]
    show (buildValidation (CsvValidator.new s) f).errors = _
    rw [buildValidation_errors, hdec]

theorem file_level_errors_accumulate_witness :
    errorsReported (CsvValidator.new []) file6
      = fileSizeErrors (CsvValidator.new []) file6 ++ fileTypeErrors file6
        ++ encodingErrors file6 ++ headerReadErrors file6
        ++ validate_headers_errors (CsvValidator.new []) (headersOf file6)
        ++ rowErrsFrom (headersOf file6) 0 file6.rows :=
  file_level_errors_accumulate [] file6 rfl rfl rfl

/-- Claim C7, amended:  The preview of the constructed `CsvValidationResult`
holds the successfully parsed rows *among the first five data rows of the
file* (verbatim, independent of field-level validity) — not the first five
successfully parsed rows: a parse failure among the first five rows shrinks
the preview below five even when later rows parse.  (When `validate_file`
returns `Ok`, every row parsed, so the preview is then exactly the first
five rows.) -/
theorem preview_rows_spec (s : List SchoolAccount) (f : FileInput) :
    (buildValidation (CsvValidator.new s) f).preview_rows
      = (f.rows.take 5).filterMap Except.toOption := by
  show (rowPass (headersOf f) f.rows).preview = _
  unfold rowPass
  rw [rowPass_preview]
  simp

/-- Claim C7, counterexample: the file `file7` has five parseable data rows, but the
`CsvValidationResult` built for it holds only four preview rows, because the
unparseable first row consumed one of the five preview slots. -/
theorem preview_rows_counterexample :
    (buildValidation (CsvValidator.new []) file7).preview_rows.length = 4
    ∧ (file7.rows.filterMap Except.toOption).length = 5 := by
  exact ⟨rfl, rfl⟩

/-- Claim C8, amended:  The existing-account cross-check is performed only
when steps 1–5 produced zero errors, and it never contributes a validation
error or affects the outcome — indeed the whole `validate_file` result is
independent of the store.  However, its informational matches are *not*
returned to the caller: the source binds them to a local that is dropped,
and `CsvValidationResult` has no field for them (the separate
`check_existing_accounts` command is the only way to obtain them). -/
theorem existing_check_informational (s1 s2 s : List SchoolAccount) (f : FileInput) :
    validate_file (CsvValidator.new s1) f = validate_file (CsvValidator.new s2) f
    ∧ (accumulatedErrors (CsvValidator.new s) f = [] →
        validate_file_existing (CsvValidator.new s) f
          = check_existing_school_accounts (CsvValidator.new s) (headersOf f)
              (f.rows.filterMap Except.toOption))
    ∧ (accumulatedErrors (CsvValidator.new s) f ≠ [] →
        validate_file_existing (CsvValidator.new s) f = []) := by
  refine ⟨validate_file_connection_free s1 s2 f, ?_, ?_⟩
  · intro h
    unfold validate_file_existing
    rw [h]
    rfl
  · intro h
    unfold validate_file_existing
    rw [if_neg]
    simp [List.isEmpty_iff, h]

theorem existing_check_informational_witness :
    validate_file_existing (CsvValidator.new store8) file6 = [] :=
  (existing_check_informational store8 [] store8 file6).2.2 (by decide)

/-- Claim C8, counterexample:  For a valid file whose `student_id` matches an
account in the store, the cross-check result is non-empty and differs from
the empty-store run, yet `validate_file` returns the *same* outcome for both
stores: the informational matches are not part of the validation outcome. -/
theorem existing_check_discarded_counterexample :
    validate_file (CsvValidator.new store8) fileX
        = validate_file (CsvValidator.new []) fileX
    ∧ validate_file_existing (CsvValidator.new store8) fileX ≠ []
    ∧ validate_file_existing (CsvValidator.new store8) fileX
        ≠ validate_file_existing (CsvValidator.new []) fileX := by
  refine ⟨rfl, by decide, by decide⟩

namespace CsvCommands

theorem toBatchesF_flatten (n : Nat) :
    ∀ (fuel : Nat) (l : List α), l.length ≤ fuel → (toBatchesF n fuel l).flatten = l
  | _, [], _ => by simp [toBatchesF]
  | 0, x :: xs, h => by simp at h
  | fuel + 1, x :: xs, h => by
    rw [toBatchesF]
    simp only [List.flatten_cons]
    rw [toBatchesF_flatten n fuel (xs.drop (n - 1))
      (by simp only [List.length_drop]; simp at h; omega)]
    simp [List.take_append_drop]

theorem toBatches_flatten (n : Nat) (l : List α) : (toBatches n l).flatten = l :=
  toBatchesF_flatten n l.length l (Nat.le_refl _)

theorem batch_transform_flatten
    (transform : List String → Except String CreateSchoolAccountRequest)
    (records : List (List String)) (batch_size : Nat) :
    (batch_transform_records transform records batch_size).flatten
      = records.map transform := by
  unfold batch_transform_records
  rw [← List.map_flatten, toBatches_flatten]

theorem importRow_total (faults : StoreFaults) (sem : String) (fu : Bool)
    (st : ImportState) (r : Except String CreateSchoolAccountRequest) :
    (importRow faults sem fu st r).total_processed = st.total_processed + 1 := by
  cases r with
  | error e => rfl
  | ok req =>
    unfold importRow
    simp only
    split
    · split
      · split <;> rfl
      · rfl
    · split <;> rfl

theorem importRow_ids (faults : StoreFaults) (sem : String) (fu : Bool)
    (st : ImportState) (r : Except String CreateSchoolAccountRequest) :
    (importRow faults sem fu st r).school_ids_to_activate
      = st.school_ids_to_activate
        ++ (match r with | .ok req => [req.school_id] | .error _ => []) := by
  cases r with
  | error e => simp [importRow]
  | ok req =>
    unfold importRow
    simp only
    split
    · split
      · split <;> rfl
      · rfl
    · split <;> rfl

theorem importRow_step_counts (faults : StoreFaults) (sem : String) (fu : Bool)
    (st : ImportState) (r : Except String CreateSchoolAccountRequest) :
    ((importRow faults sem fu st r).successful_imports = st.successful_imports + 1
      ∧ (importRow faults sem fu st r).failed_imports = st.failed_imports
      ∧ (importRow faults sem fu st r).error_details = st.error_details)
    ∨ ((importRow faults sem fu st r).successful_imports = st.successful_imports
      ∧ (importRow faults sem fu st r).failed_imports = st.failed_imports + 1
      ∧ ∃ m, (importRow faults sem fu st r).error_details
          = st.error_details ++ [m]) := by
  cases r with
  | error e => exact .inr ⟨rfl, rfl, _, rfl⟩
  | ok req =>
    unfold importRow
    simp only
    split
    · split
      · split
        · exact .inl ⟨rfl, rfl, rfl⟩
        · exact .inr ⟨rfl, rfl, _, rfl⟩
      · exact .inr ⟨rfl, rfl, _, rfl⟩
    · split
      · exact .inl ⟨rfl, rfl, rfl⟩
      · exact .inr ⟨rfl, rfl, _, rfl⟩

theorem foldRows_counts (faults : StoreFaults) (sem : String) (fu : Bool) :
    ∀ (results : List (Except String CreateSchoolAccountRequest)) (st : ImportState),
      ((results.foldl (importRow faults sem fu) st).total_processed
          = st.total_processed + results.length)
      ∧ ((results.foldl (importRow faults sem fu) st).successful_imports
          + (results.foldl (importRow faults sem fu) st).failed_imports
          = st.successful_imports + st.failed_imports + results.length)
      ∧ (st.error_details.length = st.failed_imports →
          (results.foldl (importRow faults sem fu) st).error_details.length
            = (results.foldl (importRow faults sem fu) st).failed_imports)
  | [], st => by simp
  | r :: rest, st => by
    have ih := foldRows_counts faults sem fu rest (importRow faults sem fu st r)
    have h1 := importRow_total faults sem fu st r
    have h2 := importRow_step_counts faults sem fu st r
    simp only [List.foldl_cons, List.length_cons]
    refine ⟨?_, ?_, ?_⟩
    · rw [ih.1, h1]; omega
    · rcases h2 with ⟨hs, hf, _⟩ | ⟨hs, hf, _⟩ <;> (rw [ih.2.1 ] at *; omega)
    · intro hlen
      refine ih.2.2 ?_
      rcases h2 with ⟨hs, hf, he⟩ | ⟨hs, hf, ⟨m, he⟩⟩
      · rw [he, hf, hlen]
      · rw [he, hf]
        simp [hlen]

theorem foldRows_ids (faults : StoreFaults) (sem : String) (fu : Bool) :
    ∀ (results : List (Except String CreateSchoolAccountRequest)) (st : ImportState),
      (results.foldl (importRow faults sem fu) st).school_ids_to_activate
        = st.school_ids_to_activate ++ collectedIds results
  | [], st => by simp [collectedIds]
  | r :: rest, st => by
    have ih := foldRows_ids faults sem fu rest (importRow faults sem fu st r)
    have h := importRow_ids faults sem fu st r
    simp only [List.foldl_cons]
    rw [ih, h]
    cases r <;> simp [collectedIds]

theorem update_school_account_ok (faults : StoreFaults) (store : List SchoolAccount)
    (tid : Nat) (req : CreateSchoolAccountRequest) (updated : SchoolAccount)
    (store1 : List SchoolAccount)
    (h : update_school_account faults store tid req = .ok (updated, store1)) :
    updated = { id := tid, school_id := req.school_id, first_name := req.first_name,
                last_name := req.last_name, is_active := req.is_active,
                last_updated_semester_id := req.last_updated_semester_id }
    ∧ store1 = store.map (fun a => if a.id == tid then
        { id := tid, school_id := req.school_id, first_name := req.first_name,
          last_name := req.last_name, is_active := req.is_active,
          last_updated_semester_id := req.last_updated_semester_id } else a) := by
  unfold update_school_account at h
  split at h
  · cases h
  · simp only [Except.ok.injEq, Prod.mk.injEq] at h
    exact ⟨h.1.symm, h.2.symm⟩

theorem create_school_account_ok (faults : StoreFaults) (store : List SchoolAccount)
    (nid : Nat) (req : CreateSchoolAccountRequest) (created : SchoolAccount)
    (store1 : List SchoolAccount)
    (h : create_school_account faults store nid req = .ok (created, store1)) :
    store1 = store ++ [{ id := nid, school_id := req.school_id,
                         first_name := req.first_name, last_name := req.last_name,
                         is_active := req.is_active,
                         last_updated_semester_id := req.last_updated_semester_id }] := by
  unfold create_school_account at h
  split at h
  · cases h
  · simp only [Except.ok.injEq, Prod.mk.injEq] at h
    exact h.2.symm

theorem importRow_activeInv (faults : StoreFaults) (sem : String) (fu : Bool)
    (st : ImportState) (r : Except String CreateSchoolAccountRequest)
    (h : ActiveInv st) : ActiveInv (importRow faults sem fu st r) := by
  cases r with
  | error e =>
    intro a ha hact
    exact h a ha hact
  | ok req =>
    unfold importRow
    simp only
    split
    · rename_i existing_account hget
      split
      · split
        · rename_i updated_account store1 hupd
          obtain ⟨hu, hs⟩ := update_school_account_ok _ _ _ _ _ _ hupd
          intro a ha hact
          subst hs
          rcases List.mem_map.mp ha with ⟨b, hb, rfl⟩
          by_cases hid : (b.id == existing_account.id) = true
          · simp [hid]
          · simp only [hid, Bool.false_eq_true, if_false] at hact ⊢
            exact List.mem_append_left _ (h b hb hact)
        · intro a ha hact
          exact List.mem_append_left _ (h a ha hact)
      · intro a ha hact
        exact List.mem_append_left _ (h a ha hact)
    · split
      · rename_i created store1 hcre
        have hs := create_school_account_ok _ _ _ _ _ _ hcre
        intro a ha hact
        subst hs
        rcases List.mem_append.mp ha with hmem | hmem
        · exact List.mem_append_left _ (h a hmem hact)
        · rw [List.mem_singleton.mp hmem]
          exact List.mem_append_right _ (List.mem_singleton.mpr rfl)
      · intro a ha hact
        exact List.mem_append_left _ (h a ha hact)

theorem foldRows_activeInv (faults : StoreFaults) (sem : String) (fu : Bool) :
    ∀ (results : List (Except String CreateSchoolAccountRequest)) (st : ImportState),
      ActiveInv st → ActiveInv (results.foldl (importRow faults sem fu) st)
  | [], _, h => h
  | r :: rest, st, h =>
    foldRows_activeInv faults sem fu rest (importRow faults sem fu st r)
      (importRow_activeInv faults sem fu st r h)

theorem initState_activeInv (store0 : List SchoolAccount) :
    ActiveInv (initState store0) := by
  intro a ha hact
  rcases List.mem_map.mp ha with ⟨b, _, rfl⟩
  cases hact

theorem activate_many_reconciles (store : List SchoolAccount) (ids : List String)
    (hinv : ∀ a ∈ store, a.is_active = true → a.school_id ∈ ids) :
    ∀ a ∈ activate_many store ids, (a.is_active = true ↔ a.school_id ∈ ids) := by
  intro a ha
  rcases List.mem_map.mp ha with ⟨b, hb, rfl⟩
  by_cases h : ids.contains b.school_id = true
  · simp only [h, if_true]
    simp only [true_iff]
    exact List.elem_iff.mp h
  · have hnm : ¬ b.school_id ∈ ids := fun hm => h (List.elem_iff.mpr hm)
    simp only [h, if_false]
    constructor
    · intro hact
      exact absurd (hinv b hb hact) hnm
    · intro hm
      exact absurd hm hnm

theorem activate_many_nil (store : List SchoolAccount) :
    activate_many store [] = store := by
  unfold activate_many
  simp

theorem countActive_le_length (store : List SchoolAccount) :
    countActive store ≤ store.length :=
  List.length_filter_le _ _

theorem importRow_existing_accounts_not_fu (faults : StoreFaults) (sem : String)
    (st : ImportState) (r : Except String CreateSchoolAccountRequest) :
    (importRow faults sem false st r).existing_accounts = st.existing_accounts := by
  cases r with
  | error e => rfl
  | ok req =>
    unfold importRow
    simp only
    split
    · rfl
    · split <;> rfl

theorem foldRows_existing_accounts_not_fu (faults : StoreFaults) (sem : String) :
    ∀ (results : List (Except String CreateSchoolAccountRequest)) (st : ImportState),
      (results.foldl (importRow faults sem false) st).existing_accounts
        = st.existing_accounts
  | [], _ => rfl
  | r :: rest, st => by
    have ih := foldRows_existing_accounts_not_fu faults sem rest
      (importRow faults sem false st r)
    simp only [List.foldl_cons]
    rw [ih, importRow_existing_accounts_not_fu]

theorem importRow_already_exists (faults : StoreFaults) (sem : String)
    (st : ImportState) (req : CreateSchoolAccountRequest)
    (existing_account : SchoolAccount)
    (hget : get_school_account_by_school_id st.store req.school_id
      = some existing_account) :
    importRow faults sem false st (.ok req)
      = { st with total_processed := st.total_processed + 1,
                  school_ids_to_activate :=
                    st.school_ids_to_activate ++ [req.school_id],
                  failed_imports := st.failed_imports + 1,
                  error_details := st.error_details
                    ++ ["Account with school_id " ++ req.school_id
                        ++ " already exists"] } := by
  unfold importRow
  simp only [hget]
  rfl

theorem foldRows_already_exists (faults : StoreFaults) (sem : String) :
    ∀ (results : List (Except String CreateSchoolAccountRequest)) (st : ImportState),
      (∀ r ∈ results, ∃ req, r = .ok req
        ∧ (get_school_account_by_school_id st.store req.school_id).isSome = true) →
      ((results.foldl (importRow faults sem false) st).store = st.store
       ∧ (results.foldl (importRow faults sem false) st).successful_imports
          = st.successful_imports
       ∧ (results.foldl (importRow faults sem false) st).failed_imports
          = st.failed_imports + results.length
       ∧ (results.foldl (importRow faults sem false) st).school_ids_to_activate
          = st.school_ids_to_activate ++ collectedIds results
       ∧ (results.foldl (importRow faults sem false) st).error_details
          = st.error_details ++ (collectedIds results).map
              (fun sid => "Account with school_id " ++ sid ++ " already exists"))
  | [], st, _ => by simp [collectedIds]
  | r :: rest, st, hall => by
    obtain ⟨req, rfl, hsome⟩ := hall r (List.mem_cons_self r rest)
    obtain ⟨existing_account, hget⟩ := Option.isSome_iff_exists.mp hsome
    have hstep := importRow_already_exists faults sem st req existing_account hget
    have ih := foldRows_already_exists faults sem rest
      (importRow faults sem false st (.ok req))
      (by
        intro r2 hr2
        obtain ⟨req2, hq2, hsome2⟩ := hall r2 (List.mem_cons_of_mem _ hr2)
        refine ⟨req2, hq2, ?_⟩
        rw [hstep]
        exact hsome2)
    simp only [List.foldl_cons]
    rw [hstep] at ih ⊢
    simp only at ih
    refine ⟨ih.1, ih.2.1, ?_, ?_, ?_⟩
    · rw [ih.2.2.1]
      simp [collectedIds]
      omega
    · rw [ih.2.2.2.1]
      simp [collectedIds]
    · rw [ih.2.2.2.2]
      simp [collectedIds]

theorem get_deactivate_all_isSome (store : List SchoolAccount) (sid : String) :
    (get_school_account_by_school_id (deactivate_all store) sid).isSome
      = (get_school_account_by_school_id store sid).isSome := by
  unfold get_school_account_by_school_id deactivate_all
  rw [List.find?_map]
  have hp : ((fun (a : SchoolAccount) => a.school_id == sid)
        ∘ fun (a : SchoolAccount) =>
      ({ id := a.id, school_id := a.school_id, first_name := a.first_name,
         last_name := a.last_name, is_active := false,
         last_updated_semester_id := a.last_updated_semester_id } : SchoolAccount))
      = fun (a : SchoolAccount) => a.school_id == sid := rfl
  rw [hp]
  cases store.find? (fun a => a.school_id == sid) <;> rfl

theorem import_csv_file_run (faults : StoreFaults) (store0 : List SchoolAccount)
    (f : FileInput)
    (transform : List String → Except String CreateSchoolAccountRequest)
    (sem : String) (fu : Bool) (vr : CsvValidationResult)
    (hval : validate_file (CsvValidator.new store0) f = .ok vr)
    (hda : faults.deactivate_all_fails = false) :
    ((runState faults store0 f transform sem fu).school_ids_to_activate
      = collectedIds (transformedResults f transform))
    ∧ ((runState faults store0 f transform sem fu).school_ids_to_activate.isEmpty
          = true →
        import_csv_file faults store0 f transform sem fu
          = .ok (mkResponse vr (runState faults store0 f transform sem fu)
                   (runState faults store0 f transform sem fu).store.length 0,
                 (runState faults store0 f transform sem fu).store))
    ∧ ((runState faults store0 f transform sem fu).school_ids_to_activate.isEmpty
          = false →
        faults.activate_many_fails = true →
        import_csv_file faults store0 f transform sem fu
          = .error "Failed to activate imported accounts")
    ∧ ((runState faults store0 f transform sem fu).school_ids_to_activate.isEmpty
          = false →
        faults.activate_many_fails = false →
        import_csv_file faults store0 f transform sem fu
          = .ok (mkResponse vr (runState faults store0 f transform sem fu)
                   (activate_many (runState faults store0 f transform sem fu).store
                     (runState faults store0 f transform sem fu).school_ids_to_activate).length
                   (countActive (activate_many
                     (runState faults store0 f transform sem fu).store
                     (runState faults store0 f transform sem fu).school_ids_to_activate)),
                 activate_many (runState faults store0 f transform sem fu).store
                   (runState faults store0 f transform sem fu).school_ids_to_activate)) := by
  have hrun : import_csv_file faults store0 f transform sem fu
      = (if (runState faults store0 f transform sem fu).school_ids_to_activate.isEmpty
         then .ok (mkResponse vr (runState faults store0 f transform sem fu)
                     (runState faults store0 f transform sem fu).store.length 0,
                   (runState faults store0 f transform sem fu).store)
         else if faults.activate_many_fails then
           .error "Failed to activate imported accounts"
         else
           .ok (mkResponse vr (runState faults store0 f transform sem fu)
                  (activate_many (runState faults store0 f transform sem fu).store
                    (runState faults store0 f transform sem fu).school_ids_to_activate).length
                  (countActive (activate_many
                    (runState faults store0 f transform sem fu).store
                    (runState faults store0 f transform sem fu).school_ids_to_activate)),
                activate_many (runState faults store0 f transform sem fu).store
                  (runState faults store0 f transform sem fu).school_ids_to_activate)) := by
    unfold import_csv_file
    rw [hval]
    simp only
    unfold import_reconcile
    rw [hda]
    simp only [Bool.false_eq_true, if_false]
    rw [← List.foldl_flatten, batch_transform_flatten]
    rfl
  refine ⟨?_, ?_, ?_, ?_⟩
  · unfold runState
    rw [foldRows_ids]
    simp [initState]
  · intro hE
    rw [hrun, hE]
    rfl
  · intro hE hf
    rw [hrun, hE, hf]
    rfl
  · intro hE hf
    rw [hrun, hE, hf]
    rfl

/-- Claim C1, amended:  After any import run that returns an outcome, the
store is reconciled against the *activation set* — the identifiers of the
successfully transformed rows: an account is active exactly when its
identifier is in that set.  Identifiers that occur in the file but whose row
failed transformation (or whose failed create left no account) are *not*
reactivated.  The reported `activated_accounts + deactivated_accounts =
total_accounts` always holds. -/
theorem import_reconciliation (faults : StoreFaults) (store0 : List SchoolAccount)
    (f : FileInput)
    (transform : List String → Except String CreateSchoolAccountRequest)
    (sem : String) (fu : Bool) (resp : CsvImportResponse)
    (finalStore : List SchoolAccount)
    (h : import_csv_file faults store0 f transform sem fu = .ok (resp, finalStore)) :
    (∀ a ∈ finalStore,
      (a.is_active = true ↔ a.school_id ∈ collectedIds (transformedResults f transform)))
    ∧ ∃ counts, resp.account_status_counts = some counts
        ∧ counts.activated_accounts + counts.deactivated_accounts
          = counts.total_accounts := by
  cases hval : validate_file (CsvValidator.new store0) f with
  | error es =>
    unfold import_csv_file at h
    rw [hval] at h
    cases h
  | ok vr =>
    cases hda : faults.deactivate_all_fails with
    | true =>
      unfold import_csv_file at h
      rw [hval] at h
      simp only at h
      unfold import_reconcile at h
      rw [hda] at h
      simp at h
    | false =>
      obtain ⟨hids, h1, h2, h3⟩ :=
        import_csv_file_run faults store0 f transform sem fu vr hval hda
      have hinv : ActiveInv (runState faults store0 f transform sem fu) :=
        foldRows_activeInv faults sem fu (transformedResults f transform)
          (initState store0) (initState_activeInv store0)
      cases hEmpty : (runState faults store0 f transform sem fu).school_ids_to_activate.isEmpty with
      | true =>
        rw [h1 hEmpty] at h
        simp only [Except.ok.injEq, Prod.mk.injEq] at h
        obtain ⟨hresp, hstore⟩ := h
        subst hresp
        subst hstore
        have hidsnil : (runState faults store0 f transform sem fu).school_ids_to_activate
            = [] := List.isEmpty_iff.mp hEmpty
        have hcoll : collectedIds (transformedResults f transform) = [] := by
          rw [← hids, hidsnil]
        constructor
        · intro a ha
          rw [hcoll]
          simp only [List.not_mem_nil, iff_false]
          intro hact
          have hmem := hinv a ha hact
          rw [hidsnil] at hmem
          exact List.not_mem_nil _ hmem
        · refine ⟨_, rfl, ?_⟩
          simp only [mkResponse]
          omega
      | false =>
        cases hf : faults.activate_many_fails with
        | true =>
          rw [h2 hEmpty hf] at h
          cases h
        | false =>
          rw [h3 hEmpty hf] at h
          simp only [Except.ok.injEq, Prod.mk.injEq] at h
          obtain ⟨hresp, hstore⟩ := h
          subst hresp
          subst hstore
          constructor
          · intro a ha
            have hrec := activate_many_reconciles
              (runState faults store0 f transform sem fu).store
              (runState faults store0 f transform sem fu).school_ids_to_activate
              hinv a ha
            rw [hids] at hrec
            exact hrec
          · refine ⟨_, rfl, ?_⟩
            have hle := countActive_le_length (activate_many
              (runState faults store0 f transform sem fu).store
              (runState faults store0 f transform sem fu).school_ids_to_activate)
            simp only [mkResponse]
            omega

theorem import_reconciliation_witness :
    (∀ a ∈ wOutC1.2,
      (a.is_active = true ↔ a.school_id ∈ collectedIds (transformedResults fileX tOkX)))
    ∧ ∃ counts, wOutC1.1.account_status_counts = some counts
        ∧ counts.activated_accounts + counts.deactivated_accounts
          = counts.total_accounts :=
  import_reconciliation noFaults [] fileX tOkX "sem" false wOutC1.1 wOutC1.2 (by rfl)

/-- Claim C1, counterexample:  The identifier `X` is present in the imported
file and the run returns an outcome, yet the account with identifier `X`
ends the run *inactive*: its row failed transformation, so it was excluded
from the activation set and the deactivation sweep was never compensated. -/
theorem reconciliation_counterexample :
    (import_csv_file noFaults store1x fileX tErr "sem" false).isOk = true
    ∧ (fileSchoolIds (headersOf fileX) (fileX.rows.filterMap Except.toOption)).contains
        "X" = true
    ∧ cOutC1.2 = [{ id := 1, school_id := "X", first_name := "A", last_name := "B",
                    is_active := false, last_updated_semester_id := none }] := by
  refine ⟨rfl, rfl, rfl⟩

/-- Claim C2:  During import, a store failure in the deactivate-all sweep, or
in the bulk reactivation (which is attempted exactly when some row
transformed successfully), aborts the whole import with an error and no
outcome; when the sweeps succeed, the import returns an outcome whatever the
per-row failures: every row contributes exactly one to `total_processed`,
each row either succeeds or increments `failed_imports` appending one
message, so `successful + failed = rows` and
`error_details.length = failed_imports`. -/
theorem import_failure_semantics (faults : StoreFaults) (store0 : List SchoolAccount)
    (f : FileInput)
    (transform : List String → Except String CreateSchoolAccountRequest)
    (sem : String) (fu : Bool) (vr : CsvValidationResult)
    (hval : validate_file (CsvValidator.new store0) f = .ok vr) :
    (faults.deactivate_all_fails = true →
      import_csv_file faults store0 f transform sem fu
        = .error "Failed to deactivate existing accounts")
    ∧ (faults.deactivate_all_fails = false → faults.activate_many_fails = true →
        collectedIds (transformedResults f transform) ≠ [] →
        import_csv_file faults store0 f transform sem fu
          = .error "Failed to activate imported accounts")
    ∧ (faults.deactivate_all_fails = false →
        (faults.activate_many_fails = false
          ∨ collectedIds (transformedResults f transform) = []) →
        ∃ resp finalStore,
          import_csv_file faults store0 f transform sem fu = .ok (resp, finalStore)
          ∧ resp.total_processed = (transformedResults f transform).length
          ∧ resp.successful_imports + resp.failed_imports
              = (transformedResults f transform).length
          ∧ resp.error_details.length = resp.failed_imports) := by
  refine ⟨?_, ?_, ?_⟩
  · intro hda
    unfold import_csv_file
    rw [hval]
    simp only
    unfold import_reconcile
    rw [hda]
    rfl
  · intro hda hf hne
    obtain ⟨hids, h1, h2, h3⟩ :=
      import_csv_file_run faults store0 f transform sem fu vr hval hda
    have hE : (runState faults store0 f transform sem fu).school_ids_to_activate.isEmpty
        = false := by
      cases hx : (runState faults store0 f transform sem fu).school_ids_to_activate.isEmpty
      · rfl
      · have := List.isEmpty_iff.mp hx
        rw [hids] at this
        exact absurd this hne
    exact h2 hE hf
  · intro hda hor
    obtain ⟨hids, h1, h2, h3⟩ :=
      import_csv_file_run faults store0 f transform sem fu vr hval hda
    have hc := foldRows_counts faults sem fu (transformedResults f transform)
      (initState store0)
    obtain ⟨hc1, hc2, hc3⟩ := hc
    rw [show (initState store0).total_processed = 0 from rfl] at hc1
    rw [show (initState store0).successful_imports = 0 from rfl,
        show (initState store0).failed_imports = 0 from rfl] at hc2
    have hc3' := hc3 (by rfl)
    cases hEmpty : (runState faults store0 f transform sem fu).school_ids_to_activate.isEmpty with
    | true =>
      refine ⟨_, _, h1 hEmpty, ?_, ?_, ?_⟩ <;>
        (simp only [mkResponse]
         unfold runState
         omega)
    | false =>
      have hf : faults.activate_many_fails = false := by
        rcases hor with hf | hnil
        · exact hf
        · exfalso
          have : (runState faults store0 f transform sem fu).school_ids_to_activate
              = [] := by rw [hids, hnil]
          rw [List.isEmpty_iff.mpr this] at hEmpty
          cases hEmpty
      refine ⟨_, _, h3 hEmpty hf, ?_, ?_, ?_⟩ <;>
        (simp only [mkResponse]
         unfold runState
         omega)

theorem import_failure_semantics_witness :
    import_csv_file daFault [] fileX tOkX "sem" true
      = .error "Failed to deactivate existing accounts" :=
  (import_failure_semantics daFault [] fileX tOkX "sem" true
    (buildValidation (CsvValidator.new []) fileX) (by rfl)).1 rfl

/-- Claim C9, amended:  Importing with `force_update = false` when every
transformed row's identifier already exists in the store yields
`successful_imports = 0`, one "already exists" failure per row, and *no*
per-row mutation: the final store is exactly the pre-run store with each
account's active flag set to whether its identifier is in the activation
set.  (A store whose active flags already match that set — e.g. one left by
an identical earlier import — is therefore unchanged; in general the sweep
still rewrites the flags.) -/
theorem reimport_already_exists (faults : StoreFaults) (store0 : List SchoolAccount)
    (f : FileInput)
    (transform : List String → Except String CreateSchoolAccountRequest)
    (sem : String) (vr : CsvValidationResult) (resp : CsvImportResponse)
    (finalStore : List SchoolAccount)
    (hval : validate_file (CsvValidator.new store0) f = .ok vr)
    (hda : faults.deactivate_all_fails = false)
    (hall : ∀ r ∈ transformedResults f transform, ∃ req, r = .ok req
      ∧ (get_school_account_by_school_id store0 req.school_id).isSome = true)
    (h : import_csv_file faults store0 f transform sem false = .ok (resp, finalStore)) :
    resp.successful_imports = 0
    ∧ resp.failed_imports = (transformedResults f transform).length
    ∧ resp.error_details = (collectedIds (transformedResults f transform)).map
        (fun sid => "Account with school_id " ++ sid ++ " already exists")
    ∧ finalStore = activate_many (deactivate_all store0)
        (collectedIds (transformedResults f transform)) := by
  obtain ⟨hids, h1, h2, h3⟩ :=
    import_csv_file_run faults store0 f transform sem false vr hval hda
  have hall' : ∀ r ∈ transformedResults f transform, ∃ req, r = .ok req
      ∧ (get_school_account_by_school_id (initState store0).store req.school_id).isSome
        = true := by
    intro r hr
    obtain ⟨req, hq, hsome⟩ := hall r hr
    refine ⟨req, hq, ?_⟩
    show (get_school_account_by_school_id (deactivate_all store0) req.school_id).isSome
      = true
    rw [get_deactivate_all_isSome]
    exact hsome
  obtain ⟨hst, hsucc, hfail, _, herr⟩ :=
    foldRows_already_exists faults sem (transformedResults f transform)
      (initState store0) hall'
  rw [show (initState store0).successful_imports = 0 from rfl] at hsucc
  rw [show (initState store0).failed_imports = 0 from rfl] at hfail
  rw [show (initState store0).error_details = [] from rfl] at herr
  rw [show (initState store0).store = deactivate_all store0 from rfl] at hst
  cases hEmpty : (runState faults store0 f transform sem false).school_ids_to_activate.isEmpty with
  | true =>
    rw [h1 hEmpty] at h
    simp only [Except.ok.injEq, Prod.mk.injEq] at h
    obtain ⟨hresp, hstore⟩ := h
    subst hresp
    subst hstore
    have hidsnil : (runState faults store0 f transform sem false).school_ids_to_activate
        = [] := List.isEmpty_iff.mp hEmpty
    have hcoll : collectedIds (transformedResults f transform) = [] := by
      rw [← hids, hidsnil]
    refine ⟨?_, ?_, ?_, ?_⟩
    · show (runState faults store0 f transform sem false).successful_imports = 0
      unfold runState
      exact hsucc
    · show (runState faults store0 f transform sem false).failed_imports = _
      unfold runState
      rw [hfail]
      omega
    · show (runState faults store0 f transform sem false).error_details = _
      unfold runState
      rw [herr]
      simp
    · show (runState faults store0 f transform sem false).store = _
      unfold runState
      rw [hst, hcoll, activate_many_nil]
  | false =>
    cases hf : faults.activate_many_fails with
    | true =>
      rw [h2 hEmpty hf] at h
      cases h
    | false =>
      rw [h3 hEmpty hf] at h
      simp only [Except.ok.injEq, Prod.mk.injEq] at h
      obtain ⟨hresp, hstore⟩ := h
      subst hresp
      subst hstore
      refine ⟨?_, ?_, ?_, ?_⟩
      · show (runState faults store0 f transform sem false).successful_imports = 0
        unfold runState
        exact hsucc
      · show (runState faults store0 f transform sem false).failed_imports = _
        unfold runState
        rw [hfail]
        omega
      · show (runState faults store0 f transform sem false).error_details = _
        unfold runState
        rw [herr]
        simp
      · rw [hids]
        show activate_many (runState faults store0 f transform sem false).store _ = _
        unfold runState
        rw [hst]

theorem reimport_already_exists_witness :
    cOutC9.1.successful_imports = 0
    ∧ cOutC9.1.failed_imports = (transformedResults fileX tOkX).length
    ∧ cOutC9.1.error_details = (collectedIds (transformedResults fileX tOkX)).map
        (fun sid => "Account with school_id " ++ sid ++ " already exists")
    ∧ cOutC9.2 = activate_many (deactivate_all store9)
        (collectedIds (transformedResults fileX tOkX)) :=
  reimport_already_exists noFaults store9 fileX tOkX "sem"
    (buildValidation (CsvValidator.new store9) fileX) cOutC9.1 cOutC9.2
    (by rfl) rfl
    (by
      intro r hr
      have hrX : r = .ok reqX := by
        have h2 := (by
          simpa [transformedResults, fileX, stdHeader, rowX, tOkX] using hr :
          (∃ x, (Except.ok (ε := Unit) ["X", "A", "M", "B"]).toOption = some x)
            ∧ Except.ok reqX = r)
        exact h2.2.symm
      exact ⟨reqX, hrX, by rfl⟩)
    (by rfl)

/-- Claim C9, counterexample: the store `store9` holds accounts `X` and `Y`, both
active; the file mentions only `X`, whose identifier already exists, and the
run (with `force_update = false`) returns an outcome with
`successful_imports = 0` and an "already exists" failure — but the store is
*not* unchanged: `Y` has been deactivated by the sweep. -/
theorem reimport_store_changed_counterexample :
    (import_csv_file noFaults store9 fileX tOkX "sem" false).isOk = true
    ∧ (get_school_account_by_school_id store9 "X").isSome = true
    ∧ cOutC9.1.successful_imports = 0
    ∧ cOutC9.1.error_details = ["Account with school_id X already exists"]
    ∧ cOutC9.2 ≠ store9 := by
  refine ⟨rfl, rfl, rfl, rfl, by decide⟩

/-- Claim C10: the field `existing_account_info` counts only accounts that were
successfully updated under `force_update = true`: for every import run with
`force_update = false` that returns an outcome, `existing_accounts_count`
is `0` and `new_accounts_count` equals `total_processed`, even when every
processed row referred to an account already present in the store. -/
theorem force_update_false_counts (faults : StoreFaults) (store0 : List SchoolAccount)
    (f : FileInput)
    (transform : List String → Except String CreateSchoolAccountRequest)
    (sem : String) (resp : CsvImportResponse) (finalStore : List SchoolAccount)
    (h : import_csv_file faults store0 f transform sem false = .ok (resp, finalStore)) :
    ∃ info, resp.existing_account_info = some info
      ∧ info.existing_accounts_count = 0
      ∧ info.new_accounts_count = resp.total_processed := by
  cases hval : validate_file (CsvValidator.new store0) f with
  | error es =>
    unfold import_csv_file at h
    rw [hval] at h
    cases h
  | ok vr =>
    cases hda : faults.deactivate_all_fails with
    | true =>
      unfold import_csv_file at h
      rw [hval] at h
      simp only at h
      unfold import_reconcile at h
      rw [hda] at h
      simp at h
    | false =>
      obtain ⟨hids, h1, h2, h3⟩ :=
        import_csv_file_run faults store0 f transform sem false vr hval hda
      have hex : (runState faults store0 f transform sem false).existing_accounts
          = [] := by
        unfold runState
        rw [foldRows_existing_accounts_not_fu]
        rfl
      cases hEmpty : (runState faults store0 f transform sem false).school_ids_to_activate.isEmpty with
      | true =>
        rw [h1 hEmpty] at h
        simp only [Except.ok.injEq, Prod.mk.injEq] at h
        obtain ⟨hresp, _⟩ := h
        subst hresp
        refine ⟨_, rfl, ?_, ?_⟩ <;> simp [mkResponse, hex]
      | false =>
        cases hf : faults.activate_many_fails with
        | true =>
          rw [h2 hEmpty hf] at h
          cases h
        | false =>
          rw [h3 hEmpty hf] at h
          simp only [Except.ok.injEq, Prod.mk.injEq] at h
          obtain ⟨hresp, _⟩ := h
          subst hresp
          refine ⟨_, rfl, ?_, ?_⟩ <;> simp [mkResponse, hex]

theorem force_update_false_counts_witness :
    ∃ info, wOutC10.1.existing_account_info = some info
      ∧ info.existing_accounts_count = 0
      ∧ info.new_accounts_count = wOutC10.1.total_processed :=
  force_update_false_counts noFaults store1x fileX tOkX "sem"
    wOutC10.1 wOutC10.2 (by rfl)

end CsvCommands
